import Mathlib

/-!
Shallow embedding of `src/networking/WebSocket/WebSocket.ts` (the Nexus
gateway server). The server owns a module-level registry `clients`
(identity → session), accepts raw WebSocket channels, drives a handshake
(HELLO → identify → READY) and dispatches voice messages to per-guild
adapters. Channels are modelled by numeric identifiers; every observable
action (closing a channel with a code, sending a payload, killing a
subscription, invoking an adapter) is recorded as an `Effect` in the order
the source performs it.
-/

namespace Nexus

/-- Modelled from the spec: the distinct close-code constants of
`src/Utils/Constants.ts` (not under `src/`): NOT_ALLOWED, NO_CLIENT_ID,
NO_AUTH, SESSION_EXPIRED, DECODE_ERROR, ALREADY_CONNECTED, NOT_IDENTIFIED,
SERVER_CLOSED, each a distinct (code, reason) pair. -/
inductive WSCloseCode where
  | NOT_ALLOWED
  | NO_CLIENT_ID
  | NO_AUTH
  | SESSION_EXPIRED
  | DECODE_ERROR
  | ALREADY_CONNECTED
  | NOT_IDENTIFIED
  | SERVER_CLOSED
  deriving DecidableEq, Repr

/-- WebSocket readyState values (`ws` library: CONNECTING/OPEN/CLOSING/CLOSED). -/
inductive ReadyState where
  | CONNECTING
  | OPEN
  | CLOSING
  | CLOSED
  deriving DecidableEq, Repr

/-- The `d` payload of a voice message as decoded from JSON: every field may
be absent (`Util.parse` performs no shape validation beyond decoding). -/
structure VoiceData where
  guild_id : Option String
  session_id : Option String
  user_id : Option String
  deriving DecidableEq, Repr

/-- The decoded message envelope (`MessagePayload`): operation code `op`,
type tag `t`, data payload `d`; each may be absent in the decoded JSON. -/
structure MessagePayload where
  op : Option Nat
  t : Option String
  d : Option VoiceData
  deriving DecidableEq, Repr

/-- Payloads the server sends (`this.send`): HELLO with the current
timestamp, READY with the session's public identifier and secret. -/
inductive OutMessage where
  | hello (ready : Nat)
  | ready (client_id : String) (access_token : String)
  deriving DecidableEq, Repr

/-- Observable actions of the server, in source order: closing a channel
with a code, sending a payload on a channel, `session.kill(guildID)`,
`adapter.onVoiceStateUpdate`/`onVoiceServerUpdate` (adapters are opaque
handles, modelled by numbers), and closing the underlying acceptor
(`this.ws.close`). -/
inductive Effect where
  | closeCh (ch : Nat) (code : WSCloseCode)
  | sendMsg (ch : Nat) (payload : OutMessage)
  | killSub (guildID : String)
  | voiceStateUpdate (adapter : Nat) (d : VoiceData)
  | voiceServerUpdate (adapter : Nat) (d : VoiceData)
  | acceptorClose
  deriving DecidableEq, Repr

/-- Modelled from the spec: a `ClientSession` (`src/audio/Client.ts`, not
under `src/`): its channel (`socket`), public identifier (`id`), bearer
`secret`, the subscription set torn down on disconnect (used only through
each subscription's `guildID`, so modelled as the list of guild ids), and
the adapters map keyed by guild identifier. -/
structure Client where
  socket : Nat
  id : String
  secret : String
  updateStatusInterval : Nat
  subscriptions : List String
  adapters : List (String × Nat)
  deriving DecidableEq, Repr

/-- The registry type: the module-level `clients` Map (identity → session),
modelled as an association list with JS `Map` operations. -/
abbrev RMap := List (String × Client)

/-- `clients.get(k)`. -/
def rmapGet (m : RMap) (k : String) : Option Client :=
  (m.find? (fun p => p.1 == k)).map (·.2)

/-- `clients.get(k)` where the key may be `undefined` (a `Map` keyed by
strings returns `undefined` for an `undefined` key). -/
def rmapGetOpt (m : RMap) : Option String → Option Client
  | some k => rmapGet m k
  | none => none

/-- `clients.has(k)`. -/
def rmapHas (m : RMap) (k : Option String) : Bool :=
  (rmapGetOpt m k).isSome

/-- `clients.set(k, v)`: replace in place if present, else append. -/
def rmapSet (m : RMap) (k : String) (v : Client) : RMap :=
  if (m.find? (fun p => p.1 == k)).isSome then
    m.map (fun p => if p.1 == k then (k, v) else p)
  else m ++ [(k, v)]

/-- `clients.delete(k)`. -/
def rmapDelete (m : RMap) (k : String) : RMap :=
  m.filter (fun p => p.1 != k)

/-- `client.adapters.get(g)` for a possibly-absent guild id. -/
def adaptersGet (l : List (String × Nat)) : Option String → Option Nat
  | some k => (l.find? (fun p => p.1 == k)).map (·.2)
  | none => none

/-- Server state: constructor configuration (`password`, `blockedIP`,
`updateStatusInterval`), the `clients` registry, the channels the `ws`
server holds with their readyStates (`this.ws.clients`), the
`__client_id__` tags attached to channels, and whether the acceptor was
closed. -/
structure ServerState where
  password : String
  blockedIP : List String
  updateStatusInterval : Nat
  registry : RMap
  wsClients : List (Nat × ReadyState)
  tags : List (Nat × String)
  acceptorClosed : Bool
  deriving DecidableEq, Repr

/-- `this.getID(ws)`: read the `__client_id__` tag of a channel. -/
def ServerState.getID (st : ServerState) (ch : Nat) : Option String :=
  (st.tags.find? (fun p => p.1 == ch)).map (·.2)

/-- The readyState of a channel (absent channels read as CLOSED). -/
def ServerState.readyStateOf (st : ServerState) (ch : Nat) : ReadyState :=
  ((st.wsClients.find? (fun p => p.1 == ch)).map (·.2)).getD ReadyState.CLOSED

/-- `ws.close(..)` moves the channel's readyState to CLOSING. -/
def ServerState.closeChan (st : ServerState) (ch : Nat) : ServerState :=
  { st with
    wsClients := st.wsClients.map
      (fun p => if p.1 == ch then (p.1, ReadyState.CLOSING) else p) }

/-- Connection metadata read in `handleConnection`: the `x-forwarded-for`
header, the socket's remote address, and the `client-id` and
`authorization` headers (each possibly absent). -/
structure Headers where
  xForwardedFor : Option String
  remoteAddress : String
  clientId : Option String
  authorization : Option String
  deriving DecidableEq, Repr

/-- JS truthiness of a possibly-absent string: present and non-empty. -/
def truthy : Option String → Bool
  | some s => s != ""
  | none => false

/-- `request.headers["x-forwarded-for"] || request.socket.remoteAddress`. -/
def sourceAddr (h : Headers) : String :=
  match h.xForwardedFor with
  | some s => if s == "" then h.remoteAddress else s
  | none => h.remoteAddress

/-- `handleConnection(ws, request)` (lines 26–68): admission checks (blocked
address → NOT_ALLOWED; falsy client id → NO_CLIENT_ID; non-empty password
with mismatched authorization → NO_AUTH), then takeover (close a previous
non-CLOSED socket for the same identity with SESSION_EXPIRED), tag the
channel, send HELLO with the current timestamp. Returns the new state and
the effects in source order. -/
def handleConnection (st : ServerState) (ch : Nat) (h : Headers) (now : Nat) :
    ServerState × List Effect :=
  if (sourceAddr h) ∈ st.blockedIP then
    (st.closeChan ch, [Effect.closeCh ch WSCloseCode.NOT_ALLOWED])
  else if ¬ truthy h.clientId then
    (st.closeChan ch, [Effect.closeCh ch WSCloseCode.NO_CLIENT_ID])
  else if st.password ≠ "" ∧ h.authorization ≠ some st.password then
    (st.closeChan ch, [Effect.closeCh ch WSCloseCode.NO_AUTH])
  else
    let clientID := h.clientId.getD ""
    let (st1, eff1) :=
      match rmapGet st.registry clientID with
      | some prev =>
          if st.readyStateOf prev.socket ≠ ReadyState.CLOSED then
            (st.closeChan prev.socket,
             [Effect.closeCh prev.socket WSCloseCode.SESSION_EXPIRED])
          else (st, [])
      | none => (st, [])
    let st2 := { st1 with tags := st1.tags ++ [(ch, clientID)] }
    (st2, eff1 ++ [Effect.sendMsg ch (OutMessage.hello now)])

/-- `subclient.subscriptions.forEach((s) => subclient.kill(s.guildID))`
inside `try { .. } catch {}`: each kill is invoked in order; a kill that
throws (`killOk g = false`) aborts the iteration (the exception propagates
out of `forEach` and is swallowed by the surrounding catch). -/
def forEachKill (killOk : String → Bool) : List String → List Effect
  | [] => []
  | g :: rest =>
      Effect.killSub g :: (if killOk g then forEachKill killOk rest else [])

/-- The `close` listener registered in `handleConnection` (lines 60–67): look
up the session for the channel's captured `clientID`, kill its
subscriptions (best effort at the level of the whole loop), then
`clients.delete(clientID)` unconditionally. -/
def handleClose (killOk : String → Bool) (st : ServerState) (clientID : String) :
    ServerState × List Effect :=
  let effs :=
    match rmapGet st.registry clientID with
    | some c => forEachKill killOk c.subscriptions
    | none => []
  ({ st with registry := rmapDelete st.registry clientID }, effs)

/-- The base64 alphabet used by `Buffer.toString("base64")`. -/
def base64Alphabet : List Char :=
  "ABCDEFGHIJKLMNOPQRSTUVWXYZabcdefghijklmnopqrstuvwxyz0123456789+/".toList

/-- The base64 digit for a 6-bit value. -/
def base64Char (n : Nat) : Char :=
  base64Alphabet.getD (n % 64) '='

/-- Standard base64 of a byte sequence (`Buffer.from(s).toString("base64")`):
3-byte groups become 4 digits; a trailing group of 2 or 1 bytes is padded
with `=`. -/
def base64Encode : List Nat → List Char
  | b1 :: b2 :: b3 :: rest =>
      let n := (b1 % 256) * 65536 + (b2 % 256) * 256 + b3 % 256
      base64Char (n / 262144) :: base64Char (n / 4096 % 64) ::
        base64Char (n / 64 % 64) :: base64Char (n % 64) :: base64Encode rest
  | [b1, b2] =>
      let n := (b1 % 256) * 1024 + (b2 % 256) * 4
      [base64Char (n / 4096), base64Char (n / 64 % 64), base64Char (n % 64), '=']
  | [b1] =>
      let n := (b1 % 256) * 16
      [base64Char (n / 64), base64Char (n % 64), '=', '=']
  | [] => []

/-- The UTF-8 bytes of a string (`Buffer.from(clientID)`). -/
def utf8Bytes (s : String) : List Nat :=
  s.toUTF8.toList.map (·.toNat)

/-- The lower-case hex digit for a 4-bit value. -/
def hexChar (n : Nat) : Char :=
  "0123456789abcdef".toList.getD (n % 16) '0'

/-- `randomBytes(32).toString("hex")`: two lower-case hex digits per byte. -/
def bytesToHex (bs : List Nat) : List Char :=
  bs.flatMap (fun b => [hexChar (b % 256 / 16), hexChar (b % 16)])

/-- The decimal digit character for a value below 10. -/
def digitChar (n : Nat) : Char :=
  "0123456789".toList.getD (n % 10) '0'

/-- Accumulator loop producing the decimal digits of `n` before `acc`. -/
def natToDecAux : Nat → List Char → List Char
  | 0, acc => acc
  | n + 1, acc => natToDecAux ((n + 1) / 10) (digitChar ((n + 1) % 10) :: acc)
decreasing_by exact Nat.div_lt_self (Nat.succ_pos n) (by omega)

/-- Decimal rendering of a natural number (the JS template interpolation
`${Date.now()}` of a nonnegative integer). -/
def natToDec (n : Nat) : List Char :=
  if n = 0 then ['0'] else natToDecAux n []

/-- The secret minted at identification (line 84):
`base64(clientID) + "." + Date.now() + "." + randomBytes(32).hex`. -/
def secretChars (clientID : String) (now : Nat) (rand : List Nat) : List Char :=
  base64Encode (utf8Bytes clientID) ++ '.' :: natToDec now ++ '.' :: bytesToHex rand

/-- The secret as a string. -/
def secretKey (clientID : String) (now : Nat) (rand : List Nat) : String :=
  String.mk (secretChars clientID now rand)

/-- Modelled from the spec: `new Client(ws, secret_key, updateStatusInterval)`
(`src/audio/Client.ts`, not under `src/`) constructs a session bound to the
channel with the given secret, yielding a public identifier; the identifier
generator is abstracted as `mkId`. A fresh session holds no subscriptions
or adapters (they are created externally afterwards). -/
def Client.make (mkId : Nat → String) (socket : Nat) (secret : String)
    (interval : Nat) : Client :=
  { socket := socket, id := mkId socket, secret := secret,
    updateStatusInterval := interval, subscriptions := [], adapters := [] }

/-- The dispatch-message type tags routed (`GatewayDispatchEvents` of
discord-api-types v8). -/
def VoiceStateUpdateT : String := "VOICE_STATE_UPDATE"

/-- The voice-server-update type tag. -/
def VoiceServerUpdateT : String := "VOICE_SERVER_UPDATE"

/-- `handleWSMessage(ws, msg)` (lines 70–122), applied to the result of
`Util.parse` (`none` = decode failure). Returns `Except.error ()` when the
source would throw a TypeError (reading a property of an absent value):
`Buffer.from(undefined)` for an untagged channel identifying, and
`message.d.guild_id` when a voice message carries no `d` payload. Otherwise
returns the new state and the effects in source order. -/
def handleWSMessage (mkId : Nat → String) (st : ServerState) (ch : Nat)
    (parsed : Option MessagePayload) (now : Nat) (rand : List Nat) :
    Except Unit (ServerState × List Effect) :=
  match parsed with
  | none =>
      Except.ok (st.closeChan ch, [Effect.closeCh ch WSCloseCode.DECODE_ERROR])
  | some message =>
      if message.op = some 10 then
        if rmapHas st.registry (st.getID ch) then
          Except.ok
            (st.closeChan ch, [Effect.closeCh ch WSCloseCode.ALREADY_CONNECTED])
        else
          match st.getID ch with
          | none => Except.error ()
          | some cid =>
              let secret := secretKey cid now rand
              let wsClient := Client.make mkId ch secret st.updateStatusInterval
              Except.ok
                ({ st with registry := rmapSet st.registry cid wsClient },
                 [Effect.sendMsg ch (OutMessage.ready wsClient.id secret)])
      else
        match rmapGetOpt st.registry (st.getID ch) with
        | none =>
            Except.ok
              (st.closeChan ch, [Effect.closeCh ch WSCloseCode.NOT_IDENTIFIED])
        | some client =>
            if message.t = some VoiceStateUpdateT then
              match message.d with
              | none => Except.error ()
              | some d =>
                  if truthy d.guild_id ∧ truthy d.session_id ∧
                      d.user_id = st.getID client.socket then
                    match adaptersGet client.adapters d.guild_id with
                    | some a => Except.ok (st, [Effect.voiceStateUpdate a d])
                    | none => Except.ok (st, [])
                  else Except.ok (st, [])
            else if message.t = some VoiceServerUpdateT then
              match message.d with
              | none => Except.error ()
              | some d =>
                  match adaptersGet client.adapters d.guild_id with
                  | some a => Except.ok (st, [Effect.voiceServerUpdate a d])
                  | none => Except.ok (st, [])
            else Except.ok (st, [])

/-- `close()` (lines 129–139): close every channel whose readyState is OPEN
with SERVER_CLOSED, close the acceptor (`this.ws.close`), then
`clients.clear()`. -/
def serverClose (st : ServerState) : ServerState × List Effect :=
  let effs := st.wsClients.filterMap (fun p =>
    if p.2 = ReadyState.OPEN then
      some (Effect.closeCh p.1 WSCloseCode.SERVER_CLOSED)
    else none)
  ({ st with
     wsClients := st.wsClients.map
       (fun p => if p.2 = ReadyState.OPEN then (p.1, ReadyState.CLOSING) else p),
     acceptorClosed := true,
     registry := [] },
   effs ++ [Effect.acceptorClose])

/-! Concrete fixtures used by witnesses and counterexamples. -/

/-- A concrete public-identifier generator. -/
def mkIdW : Nat → String := fun _ => "pub-id"

/-- A teardown environment where every `kill` succeeds. -/
def killOkAll : String → Bool := fun _ => true

/-- A teardown environment where the `kill` for guild `g1` throws. -/
def killOkFail1 : String → Bool := fun g => g != "g1"

/-- A session for identity `x` on channel 1 with two subscriptions and one
adapter. -/
def clW : Client :=
  { socket := 1, id := "pub", secret := "sec", updateStatusInterval := 0,
    subscriptions := ["g1", "g2"], adapters := [("g1", 7)] }

/-- A server with no password and no blocklist, holding two open channels. -/
def stBase : ServerState :=
  { password := "", blockedIP := [], updateStatusInterval := 0,
    registry := [], wsClients := [(1, ReadyState.OPEN), (2, ReadyState.OPEN)],
    tags := [], acceptorClosed := false }

/-- `stBase` after channel 1 identified as `x` (session `clW` registered). -/
def stReg : ServerState :=
  { stBase with registry := [("x", clW)], tags := [(1, "x")] }

/-- The session `clW` re-bound to channel 2 (a newer replacement channel). -/
def clW2 : Client := { clW with socket := 2 }

/-- The race fixture: channel 1 is tagged `x` but the registry entry for `x`
was created by a newer connection on channel 2. -/
def stRace : ServerState :=
  { stBase with registry := [("x", clW2)], tags := [(1, "x"), (2, "x")] }

/-- Headers of a valid connection attempt for identity `x`. -/
def hW : Headers :=
  { xForwardedFor := none, remoteAddress := "9.9.9.9", clientId := some "x",
    authorization := none }

/-- Headers of a connection attempt from a forwarded-for address `6.6.6.6`. -/
def hBlocked : Headers :=
  { xForwardedFor := some "6.6.6.6", remoteAddress := "9.9.9.9",
    clientId := some "x", authorization := none }

/-- Headers of a connection attempt carrying no client identity. -/
def hNoId : Headers := { hW with clientId := none }

/-- `stBase` with `6.6.6.6` on the blocklist. -/
def stBlock : ServerState := { stBase with blockedIP := ["6.6.6.6"] }

/-- `stBase` with a configured password. -/
def stPw : ServerState := { stBase with password := "pw" }

/-- A bare identify message (`{op: 10}`). -/
def msgId : MessagePayload := { op := some 10, t := none, d := none }

/-- A well-formed voice-state-update payload for identity `x`, guild `g1`. -/
def vsuD : VoiceData :=
  { guild_id := some "g1", session_id := some "s", user_id := some "x" }

/-- A well-formed voice-state-update message for identity `x`, guild `g1`. -/
def vsuOk : MessagePayload :=
  { op := none, t := some VoiceStateUpdateT, d := some vsuD }

/-- A voice-server-update message with no data payload at all. -/
def vServNoD : MessagePayload :=
  { op := none, t := some VoiceServerUpdateT, d := none }

/-- A voice-server-update message for a guild with no stored adapter. -/
def vServMiss : MessagePayload :=
  { op := none, t := some VoiceServerUpdateT,
    d := some { guild_id := some "unknown", session_id := none,
                user_id := none } }

/-- `stBase` with channel 1 tagged `abc` but not yet identified. -/
def stTag : ServerState := { stBase with tags := [(1, "abc")] }

end Nexus

namespace Nexus

/-! ### Helper lemmas about the registry and teardown loop -/

theorem rmapGet_delete (m : RMap) (k : String) :
    rmapGet (rmapDelete m k) k = none := by
  induction m with
  | nil => rfl
  | cons p t ih =>
      by_cases hp : p.1 = k
      · simp only [rmapDelete, List.filter_cons] at ih ⊢
        rw [if_neg (by simp [hp])]
        exact ih
      · have hb : (p.1 == k) = false := by simp [hp]
        simp only [rmapDelete, rmapGet, List.filter_cons] at ih ⊢
        rw [if_pos (by simp [hp]), List.find?_cons, hb]
        exact ih

theorem rmapGet_append_single (m : RMap) (k : String) (v : Client)
    (h : m.find? (fun p => p.1 == k) = none) :
    rmapGet (m ++ [(k, v)]) k = some v := by
  induction m with
  | nil => simp [rmapGet, List.find?]
  | cons p t ih =>
      by_cases hb : p.1 = k
      · simp [List.find?_cons, hb] at h
      · have h' : t.find? (fun q => q.1 == k) = none := by
          simpa [List.find?_cons, hb] using h
        simpa [rmapGet, List.find?_cons, hb] using ih h'

theorem rmapGet_set_of_none (m : RMap) (k : String) (v : Client)
    (h : rmapGet m k = none) :
    rmapGet (rmapSet m k v) k = some v := by
  have hf : m.find? (fun p => p.1 == k) = none := by
    cases hfind : m.find? (fun p => p.1 == k) with
    | none => rfl
    | some p => rw [rmapGet, hfind] at h; simp at h
  rw [rmapSet]
  simp only [hf, Option.isSome_none, Bool.false_eq_true, if_false]
  exact rmapGet_append_single m k v hf

theorem rmapDelete_filter_eq_nil (m : RMap) (k : String) :
    (rmapDelete m k).filter (fun p => p.1 == k) = [] := by
  induction m with
  | nil => rfl
  | cons p t ih =>
      by_cases hp : p.1 = k
      · simp only [rmapDelete, List.filter_cons] at ih ⊢
        rw [if_neg (by simp [hp])]
        exact ih
      · simp only [rmapDelete, List.filter_cons] at ih ⊢
        rw [if_pos (by simp [hp]), List.filter_cons, if_neg (by simp [hp])]
        exact ih

theorem forEachKill_all_ok (killOk : String → Bool) (l : List String)
    (h : ∀ g ∈ l, killOk g = true) :
    forEachKill killOk l = l.map Effect.killSub := by
  induction l with
  | nil => rfl
  | cons a t ih =>
      simp [forEachKill, h a (by simp),
        ih (fun g hg => h g (List.mem_cons_of_mem a hg))]

theorem forEachKill_stops (killOk : String → Bool) (pre : List String)
    (g : String) (post : List String)
    (hpre : ∀ x ∈ pre, killOk x = true) (hg : killOk g = false) :
    forEachKill killOk (pre ++ g :: post) = (pre ++ [g]).map Effect.killSub := by
  induction pre with
  | nil => simp [forEachKill, hg]
  | cons a t ih =>
      simp [forEachKill, hpre a (by simp),
        ih (fun x hx => hpre x (List.mem_cons_of_mem a hx))]

/-! ### Claim theorems -/

/-- C1 fails as stated: with subscriptions `["g1", "g2"]` held by the
session for `x` and the `kill` call for `g1` throwing, the kill for `g2`
is never invoked — the exception aborts the `forEach` because the
`try`/`catch` wraps the whole loop — though the identity is still removed
from the registry. -/
theorem C1_counterexample :
    rmapGet stReg.registry "x" = some clW
    ∧ clW.subscriptions = ["g1", "g2"]
    ∧ killOkFail1 "g1" = false
    ∧ (handleClose killOkFail1 stReg "x").2 = [Effect.killSub "g1"]
    ∧ Effect.killSub "g2" ∉ (handleClose killOkFail1 stReg "x").2
    ∧ rmapGet (handleClose killOkFail1 stReg "x").1.registry "x" = none := by
  refine ⟨rfl, rfl, rfl, rfl, by decide, rfl⟩

/-- C1 (amended): when a channel tagged with identity `X` closes and a
session for `X` is in the registry, `kill` is invoked once per
subscription, in order, up to and including the first failing `kill`; a
failing `kill` aborts teardown of the remaining subscriptions (the
exception is swallowed only outside the loop); the identity `X` is removed
from the registry regardless of teardown failures. -/
theorem C1_close_teardown (killOk : String → Bool) (st : ServerState)
    (X : String) (c : Client)
    (hreg : rmapGet st.registry X = some c) :
    ((∀ g ∈ c.subscriptions, killOk g = true) →
      (handleClose killOk st X).2 = c.subscriptions.map Effect.killSub)
    ∧ (∀ pre g post, c.subscriptions = pre ++ g :: post →
        (∀ x ∈ pre, killOk x = true) → killOk g = false →
        (handleClose killOk st X).2 = (pre ++ [g]).map Effect.killSub)
    ∧ rmapGet (handleClose killOk st X).1.registry X = none := by
  refine ⟨?_, ?_, ?_⟩
  · intro h
    simp [handleClose, hreg, forEachKill_all_ok killOk _ h]
  · intro pre g post hsub hpre hg
    simp [handleClose, hreg, hsub, forEachKill_stops killOk pre g post hpre hg]
  · simp [handleClose, rmapGet_delete]

/-- Witness for C1 at the concrete fixture where every kill succeeds. -/
theorem C1_witness :
    (handleClose killOkAll stReg "x").2 =
      [Effect.killSub "g1", Effect.killSub "g2"]
    ∧ rmapGet (handleClose killOkAll stReg "x").1.registry "x" = none := by
  have h := C1_close_teardown killOkAll stReg "x" clW rfl
  exact ⟨h.1 (by decide), h.2.2⟩

/-- C10: the close handler is keyed by the channel's tagged identity, not by
the channel: it removes the registry entry for that identity
unconditionally (for every state), and tears down whatever session the
registry currently holds under that identity — even one bound to a
different, newer channel. -/
theorem C10_close_keyed_by_identity (killOk : String → Bool)
    (st : ServerState) (X : String) (c : Client)
    (hreg : rmapGet st.registry X = some c)
    (hok : ∀ g ∈ c.subscriptions, killOk g = true) :
    (handleClose killOk st X).2 = c.subscriptions.map Effect.killSub
    ∧ rmapGet (handleClose killOk st X).1.registry X = none
    ∧ ∀ st2 : ServerState,
        rmapGet (handleClose killOk st2 X).1.registry X = none := by
  refine ⟨?_, ?_, ?_⟩
  · simp [handleClose, hreg, forEachKill_all_ok killOk _ hok]
  · simp [handleClose, rmapGet_delete]
  · intro st2
    simp [handleClose, rmapGet_delete]

/-- Witness for C10 at the race fixture: channel 1 (tagged `x`) closes while
the registry entry for `x` holds a session bound to channel 2; that newer
session's subscriptions are killed and the entry is removed. -/
theorem C10_witness :
    (handleClose killOkAll stRace "x").2 =
      [Effect.killSub "g1", Effect.killSub "g2"]
    ∧ rmapGet (handleClose killOkAll stRace "x").1.registry "x" = none
    ∧ clW2.socket = 2 ∧ stRace.getID 1 = some "x" := by
  have h := C10_close_keyed_by_identity killOkAll stRace "x" clW2 rfl (by decide)
  exact ⟨h.1, h.2.1, rfl, rfl⟩

/-- C5: the admission checks run in order, each rejection closing the
channel with its own distinct code and doing nothing else (in particular
the registry is never touched): blocked source address → NOT_ALLOWED;
otherwise missing/empty client identity → NO_CLIENT_ID; otherwise
non-empty password with mismatched authorization → NO_AUTH. -/
theorem C5_admission_checks (st : ServerState) (ch : Nat) (h : Headers)
    (now : Nat) :
    (sourceAddr h ∈ st.blockedIP →
      handleConnection st ch h now =
        (st.closeChan ch, [Effect.closeCh ch WSCloseCode.NOT_ALLOWED]))
    ∧ (sourceAddr h ∉ st.blockedIP → truthy h.clientId = false →
      handleConnection st ch h now =
        (st.closeChan ch, [Effect.closeCh ch WSCloseCode.NO_CLIENT_ID]))
    ∧ (sourceAddr h ∉ st.blockedIP → truthy h.clientId = true →
        st.password ≠ "" → h.authorization ≠ some st.password →
      handleConnection st ch h now =
        (st.closeChan ch, [Effect.closeCh ch WSCloseCode.NO_AUTH]))
    ∧ (st.closeChan ch).registry = st.registry
    ∧ WSCloseCode.NOT_ALLOWED ≠ WSCloseCode.NO_CLIENT_ID
    ∧ WSCloseCode.NOT_ALLOWED ≠ WSCloseCode.NO_AUTH
    ∧ WSCloseCode.NO_CLIENT_ID ≠ WSCloseCode.NO_AUTH := by
  refine ⟨?_, ?_, ?_, rfl, by decide, by decide, by decide⟩
  · intro hb
    simp [handleConnection, hb]
  · intro hb hc
    simp [handleConnection, hb, hc]
  · intro hb hc hp ha
    simp [handleConnection, hb, hc, hp, ha]

/-- Witness for C5: the three rejections at concrete fixtures. -/
theorem C5_witness :
    handleConnection stBlock 1 hBlocked 0 =
      (stBlock.closeChan 1, [Effect.closeCh 1 WSCloseCode.NOT_ALLOWED])
    ∧ handleConnection stBase 1 hNoId 0 =
      (stBase.closeChan 1, [Effect.closeCh 1 WSCloseCode.NO_CLIENT_ID])
    ∧ handleConnection stPw 1 hW 0 =
      (stPw.closeChan 1, [Effect.closeCh 1 WSCloseCode.NO_AUTH]) := by
  exact ⟨(C5_admission_checks stBlock 1 hBlocked 0).1 (by decide),
    (C5_admission_checks stBase 1 hNoId 0).2.1 (by decide) rfl,
    (C5_admission_checks stPw 1 hW 0).2.2.1 (by decide) rfl (by decide)
      (by decide)⟩

/-- C6: an identify message (op 10) on a channel whose identity is already
registered closes the channel with ALREADY_CONNECTED, leaves the registry
(hence the existing registered session) untouched, and performs no further
dispatch for the message. -/
theorem C6_already_connected (mkId : Nat → String) (st : ServerState)
    (ch : Nat) (msg : MessagePayload) (now : Nat) (rand : List Nat)
    (hop : msg.op = some 10)
    (hhas : rmapHas st.registry (st.getID ch) = true) :
    handleWSMessage mkId st ch (some msg) now rand =
      Except.ok (st.closeChan ch,
        [Effect.closeCh ch WSCloseCode.ALREADY_CONNECTED])
    ∧ (st.closeChan ch).registry = st.registry := by
  refine ⟨?_, rfl⟩
  simp [handleWSMessage, hop, hhas]

/-- Witness for C6: a second identify for `x` on channel 1 of `stReg`. -/
theorem C6_witness :
    handleWSMessage mkIdW stReg 1 (some msgId) 0 [] =
      Except.ok (stReg.closeChan 1,
        [Effect.closeCh 1 WSCloseCode.ALREADY_CONNECTED]) :=
  (C6_already_connected mkIdW stReg 1 msgId 0 [] rfl rfl).1

/-- C7: an inbound raw message that fails to decode closes the channel with
DECODE_ERROR, with no other effects and no registry change. -/
theorem C7_decode_error (mkId : Nat → String) (st : ServerState) (ch : Nat)
    (now : Nat) (rand : List Nat) :
    handleWSMessage mkId st ch none now rand =
      Except.ok (st.closeChan ch,
        [Effect.closeCh ch WSCloseCode.DECODE_ERROR])
    ∧ (st.closeChan ch).registry = st.registry :=
  ⟨rfl, rfl⟩

/-- C8: `close()` issues a SERVER_CLOSED close for exactly the channels the
server holds whose readyState is OPEN, closes the underlying acceptor, and
leaves the registry empty. -/
theorem C8_shutdown (st : ServerState) :
    (∀ p ∈ st.wsClients, p.2 = ReadyState.OPEN →
      Effect.closeCh p.1 WSCloseCode.SERVER_CLOSED ∈ (serverClose st).2)
    ∧ (∀ e ∈ (serverClose st).2, e = Effect.acceptorClose ∨
        ∃ ch, e = Effect.closeCh ch WSCloseCode.SERVER_CLOSED
          ∧ (ch, ReadyState.OPEN) ∈ st.wsClients)
    ∧ Effect.acceptorClose ∈ (serverClose st).2
    ∧ (serverClose st).1.registry = []
    ∧ (serverClose st).1.acceptorClosed = true := by
  refine ⟨?_, ?_, ?_, rfl, rfl⟩
  · intro p hp hopen
    refine List.mem_append_left _ (List.mem_filterMap.mpr ⟨p, hp, ?_⟩)
    simp [hopen]
  · intro e he
    rcases List.mem_append.mp he with h1 | h2
    · rcases List.mem_filterMap.mp h1 with ⟨⟨x, s⟩, ha, hfa⟩
      by_cases hopen : s = ReadyState.OPEN
      · subst hopen
        have hx : Effect.closeCh x WSCloseCode.SERVER_CLOSED = e := by
          simpa using hfa
        exact Or.inr ⟨x, hx.symm, ha⟩
      · simp [hopen] at hfa
    · exact Or.inl (by simpa using h2)
  · exact List.mem_append_right _ (by simp)

/-- Witness for C8 at the concrete two-channel fixture. -/
theorem C8_witness :
    Effect.closeCh 1 WSCloseCode.SERVER_CLOSED ∈ (serverClose stBase).2
    ∧ Effect.acceptorClose ∈ (serverClose stBase).2
    ∧ (serverClose stBase).1.registry = [] := by
  have h := C8_shutdown stBase
  exact ⟨h.1 (1, ReadyState.OPEN) (by decide) rfl, h.2.2.1, h.2.2.2.1⟩

/-- C3 fails as stated: on an identified channel, a voice-server-update
message whose data payload is entirely missing raises a runtime type error
(the source reads `message.d.guild_id` with `message.d` undefined) instead
of being silently dropped. -/
theorem C3_counterexample :
    rmapGetOpt stReg.registry (stReg.getID 1) = some clW
    ∧ handleWSMessage mkIdW stReg 1 (some vServNoD) 0 [] =
        Except.error () :=
  ⟨rfl, rfl⟩

/-- C3 (amended): on an identified channel, a voice message that carries a
data payload and misses routing — no adapter stored under its guild
identifier, including the case of a missing guild identifier — is silently
dropped: no error, no close, no effects, state unchanged. A voice message
whose data payload is entirely missing instead raises a runtime type
error; even then no close is issued and the registry is not mutated (the
error aborts before any effect). -/
theorem C3_routing_miss (mkId : Nat → String) (st : ServerState) (ch : Nat)
    (client : Client) (msg : MessagePayload) (now : Nat) (rand : List Nat)
    (hcl : rmapGetOpt st.registry (st.getID ch) = some client)
    (hop : msg.op ≠ some 10)
    (ht : msg.t = some VoiceStateUpdateT ∨ msg.t = some VoiceServerUpdateT) :
    (∀ d, msg.d = some d → adaptersGet client.adapters d.guild_id = none →
      handleWSMessage mkId st ch (some msg) now rand = Except.ok (st, []))
    ∧ (msg.d = none →
      handleWSMessage mkId st ch (some msg) now rand = Except.error ()) := by
  constructor
  · intro d hd hmiss
    rcases ht with ht | ht
    · by_cases hcond : truthy d.guild_id = true ∧ truthy d.session_id = true ∧
          d.user_id = st.getID client.socket
      · simp [handleWSMessage, hop, hcl, ht, hd, hcond, hmiss]
      · simp [handleWSMessage, hop, hcl, ht, hd, hcond]
    · have hne : msg.t ≠ some VoiceStateUpdateT := by
        rw [ht]
        simp [VoiceStateUpdateT, VoiceServerUpdateT]
      simp [handleWSMessage, hop, hcl, ht, hne, hd, hmiss]
  · intro hd
    rcases ht with ht | ht
    · simp [handleWSMessage, hop, hcl, ht, hd]
    · have hne : msg.t ≠ some VoiceStateUpdateT := by
        rw [ht]
        simp [VoiceStateUpdateT, VoiceServerUpdateT]
      simp [handleWSMessage, hop, hcl, ht, hne, hd]

/-- Witness for C3 (amended): an adapter miss with a present payload is
dropped with no effects. -/
theorem C3_witness :
    handleWSMessage mkIdW stReg 1 (some vServMiss) 0 [] =
      Except.ok (stReg, []) :=
  (C3_routing_miss mkIdW stReg 1 clW vServMiss 0 [] rfl (by decide)
    (Or.inr rfl)).1 _ rfl rfl

/-- C4: voice-state-update dispatch. With the data payload present, no
adapter is invoked unless the payload carries a truthy guild identifier
and session identifier and its user identifier equals the identity owning
the channel; when all checks pass, exactly the adapter stored under that
guild identifier (if any) receives `onVoiceStateUpdate` with the payload.
With the data payload missing, the handler aborts before any adapter
lookup, so no adapter is invoked. The hypothesis `hsock` is the registry
invariant that a session's socket carries the identity it is registered
under. -/
theorem C4_voice_state_update (mkId : Nat → String) (st : ServerState)
    (ch : Nat) (X : String) (client : Client) (msg : MessagePayload)
    (now : Nat) (rand : List Nat)
    (htag : st.getID ch = some X)
    (hreg : rmapGet st.registry X = some client)
    (hsock : st.getID client.socket = some X)
    (hop : msg.op ≠ some 10)
    (ht : msg.t = some VoiceStateUpdateT) :
    (∀ d, msg.d = some d →
      (¬ (truthy d.guild_id = true ∧ truthy d.session_id = true ∧
            d.user_id = some X) →
        handleWSMessage mkId st ch (some msg) now rand = Except.ok (st, []))
      ∧ (truthy d.guild_id = true → truthy d.session_id = true →
          d.user_id = some X →
          handleWSMessage mkId st ch (some msg) now rand =
            Except.ok (st, (adaptersGet client.adapters d.guild_id).toList.map
              (fun a => Effect.voiceStateUpdate a d))))
    ∧ (msg.d = none →
        handleWSMessage mkId st ch (some msg) now rand = Except.error ()) := by
  have hcl : rmapGetOpt st.registry (st.getID ch) = some client := by
    rw [htag]
    exact hreg
  refine ⟨?_, ?_⟩
  · intro d hd
    constructor
    · intro hcond
      have hcond' : ¬ (truthy d.guild_id = true ∧ truthy d.session_id = true ∧
          d.user_id = st.getID client.socket) := by
        rw [hsock]
        exact hcond
      simp [handleWSMessage, hop, hcl, ht, hd, hcond']
    · intro h1 h2 h3
      have hcond' : truthy d.guild_id = true ∧ truthy d.session_id = true ∧
          d.user_id = st.getID client.socket := by
        rw [hsock]
        exact ⟨h1, h2, h3⟩
      cases hA : adaptersGet client.adapters d.guild_id with
      | some a => simp [handleWSMessage, hop, hcl, ht, hd, hcond', hA]
      | none => simp [handleWSMessage, hop, hcl, ht, hd, hcond', hA]
  · intro hd
    simp [handleWSMessage, hop, hcl, ht, hd]

/-- Witness for C4: a matching voice-state-update reaches adapter 7 stored
under `g1`. -/
theorem C4_witness :
    handleWSMessage mkIdW stReg 1 (some vsuOk) 0 [] =
      Except.ok (stReg, [Effect.voiceStateUpdate 7 vsuD]) := by
  have h := C4_voice_state_update mkIdW stReg 1 "x" clW vsuOk 0 []
    rfl rfl rfl (by decide) rfl
  exact (h.1 vsuD rfl).2 rfl rfl rfl

/-! ### The minted secret never contains a `.` outside its two separators -/

theorem base64Char_ne_dot (n : Nat) : base64Char n ≠ '.' := by
  have h : ∀ m, m < 64 → base64Alphabet.getD m '=' ≠ '.' := by decide
  exact h (n % 64) (Nat.mod_lt _ (by omega))

theorem base64Encode_no_dot : ∀ l : List Nat, '.' ∉ base64Encode l
  | b1 :: b2 :: b3 :: rest => by
      have ih := base64Encode_no_dot rest
      simp only [base64Encode, List.mem_cons, not_or]
      exact ⟨fun h => base64Char_ne_dot _ h.symm,
        fun h => base64Char_ne_dot _ h.symm,
        fun h => base64Char_ne_dot _ h.symm,
        fun h => base64Char_ne_dot _ h.symm, ih⟩
  | [b1, b2] => by
      simp only [base64Encode, List.mem_cons, not_or, List.not_mem_nil,
        not_false_eq_true, and_true]
      exact ⟨fun h => base64Char_ne_dot _ h.symm,
        fun h => base64Char_ne_dot _ h.symm,
        fun h => base64Char_ne_dot _ h.symm, by decide⟩
  | [b1] => by
      simp only [base64Encode, List.mem_cons, not_or, List.not_mem_nil,
        not_false_eq_true, and_true]
      exact ⟨fun h => base64Char_ne_dot _ h.symm,
        fun h => base64Char_ne_dot _ h.symm, by decide, by decide⟩
  | [] => by simp [base64Encode]

theorem digitChar_ne_dot (n : Nat) : digitChar n ≠ '.' := by
  have h : ∀ m, m < 10 → ("0123456789".toList.getD m '0') ≠ '.' := by decide
  exact h (n % 10) (Nat.mod_lt _ (by omega))

theorem natToDecAux_no_dot : ∀ (n : Nat) (acc : List Char),
    '.' ∉ acc → '.' ∉ natToDecAux n acc
  | 0, _, h => by
      rw [natToDecAux]
      exact h
  | n + 1, acc, h => by
      rw [natToDecAux]
      exact natToDecAux_no_dot ((n + 1) / 10)
        (digitChar ((n + 1) % 10) :: acc)
        (by
          simp only [List.mem_cons, not_or]
          exact ⟨fun hc => digitChar_ne_dot _ hc.symm, h⟩)
decreasing_by exact Nat.div_lt_self (Nat.succ_pos n) (by omega)

theorem natToDec_no_dot (n : Nat) : '.' ∉ natToDec n := by
  rw [natToDec]
  by_cases h : n = 0
  · simp [h]
  · simp only [h, if_false]
    exact natToDecAux_no_dot n [] (List.not_mem_nil _)

theorem hexChar_ne_dot (n : Nat) : hexChar n ≠ '.' := by
  have h : ∀ m, m < 16 → ("0123456789abcdef".toList.getD m '0') ≠ '.' := by
    decide
  exact h (n % 16) (Nat.mod_lt _ (by omega))

theorem bytesToHex_no_dot (bs : List Nat) : '.' ∉ bytesToHex bs := by
  intro hmem
  rcases List.mem_flatMap.mp hmem with ⟨b, _, hc⟩
  simp only [List.mem_cons, List.not_mem_nil, or_false] at hc
  rcases hc with hc | hc
  · exact hexChar_ne_dot _ hc.symm
  · exact hexChar_ne_dot _ hc.symm

theorem secretChars_count_dot (cid : String) (now : Nat) (rand : List Nat) :
    (secretChars cid now rand).count '.' = 2 := by
  have h1 : (base64Encode (utf8Bytes cid)).count '.' = 0 :=
    List.count_eq_zero.mpr (base64Encode_no_dot _)
  have h2 : (natToDec now).count '.' = 0 :=
    List.count_eq_zero.mpr (natToDec_no_dot _)
  have h3 : (bytesToHex rand).count '.' = 0 :=
    List.count_eq_zero.mpr (bytesToHex_no_dot _)
  simp [secretChars, List.count_append, List.count_cons, h1, h2, h3]

/-- C9: a successful identification (op 10 on a tagged, not-yet-registered
channel) registers a fresh session bound to the channel and replies READY
carrying that session's public identifier as `client_id` and its freshly
minted secret as `access_token`; the secret is the concatenation
`base64(identity) ++ "." ++ decimal timestamp ++ "." ++ hex(random bytes)`,
hence non-empty and containing exactly two `.` characters. -/
theorem C9_ready_secret (mkId : Nat → String) (st : ServerState) (ch : Nat)
    (cid : String) (msg : MessagePayload) (now : Nat) (rand : List Nat)
    (htag : st.getID ch = some cid)
    (hnew : rmapGet st.registry cid = none)
    (hop : msg.op = some 10) :
    ∃ cl : Client,
      handleWSMessage mkId st ch (some msg) now rand =
        Except.ok ({ st with registry := rmapSet st.registry cid cl },
          [Effect.sendMsg ch (OutMessage.ready cl.id cl.secret)])
      ∧ cl.secret = secretKey cid now rand
      ∧ cl.id = mkId ch
      ∧ cl.socket = ch
      ∧ rmapGet (rmapSet st.registry cid cl) cid = some cl
      ∧ (secretChars cid now rand).count '.' = 2
      ∧ secretChars cid now rand ≠ [] := by
  refine ⟨Client.make mkId ch (secretKey cid now rand) st.updateStatusInterval,
    ?_, rfl, rfl, rfl, ?_, ?_, ?_⟩
  · have hhas : rmapHas st.registry (some cid) = false := by
      simp [rmapHas, rmapGetOpt, hnew]
    simp [handleWSMessage, hop, hhas, htag, secretKey, Client.make]
  · exact rmapGet_set_of_none _ _ _ hnew
  · exact secretChars_count_dot cid now rand
  · simp [secretChars]

/-- Witness for C9: the secret for identity `abc`, timestamp 7, two random
bytes has exactly two `.` characters and is non-empty. -/
theorem C9_witness :
    (secretChars "abc" 7 [0, 255]).count '.' = 2
    ∧ secretChars "abc" 7 [0, 255] ≠ [] := by
  obtain ⟨cl, -, -, -, -, -, hc, hn⟩ :=
    C9_ready_secret mkIdW stTag 1 "abc" msgId 7 [0, 255] rfl rfl rfl
  exact ⟨hc, hn⟩

/-! ### Further registry/tag lemmas, used for the takeover claim -/

theorem find?_eq_none_of_rmapGet_none (m : RMap) (k : String)
    (h : rmapGet m k = none) : m.find? (fun p => p.1 == k) = none := by
  cases hfind : m.find? (fun p => p.1 == k) with
  | none => rfl
  | some p =>
      rw [rmapGet, hfind] at h
      simp at h

theorem rmapSet_of_none (m : RMap) (k : String) (v : Client)
    (h : rmapGet m k = none) : rmapSet m k v = m ++ [(k, v)] := by
  simp [rmapSet, find?_eq_none_of_rmapGet_none m k h]

theorem find?_append_single_tag (l : List (Nat × String)) (ch : Nat)
    (X : String) (h : l.find? (fun p => p.1 == ch) = none) :
    ((l ++ [(ch, X)]).find? (fun p => p.1 == ch)).map (·.2) = some X := by
  induction l with
  | nil => simp [List.find?]
  | cons p t ih =>
      by_cases hb : p.1 = ch
      · simp [List.find?_cons, hb] at h
      · have h' : t.find? (fun q => q.1 == ch) = none := by
          simpa [List.find?_cons, hb] using h
        simpa [List.find?_cons, hb] using ih h'

/-- C2: takeover. Given a registered session for identity `X` whose channel
is not CLOSED, an accepted new connection for `X` closes the old channel
with SESSION_EXPIRED strictly before sending HELLO to the new channel;
and after the old channel's close event runs and the new channel
identifies, exactly one session for `X` is reachable from the registry,
bound to the new channel. -/
theorem C2_takeover (killOk : String → Bool) (mkId : Nat → String)
    (st0 : ServerState) (X : String) (chOld chNew : Nat) (oldC : Client)
    (h : Headers) (now now2 : Nat) (rand : List Nat) (msg : MessagePayload)
    (hid : h.clientId = some X) (hX : X ≠ "")
    (hblock : sourceAddr h ∉ st0.blockedIP)
    (hpw : st0.password = "" ∨ h.authorization = some st0.password)
    (hreg : rmapGet st0.registry X = some oldC)
    (hsock : oldC.socket = chOld)
    (hopen : st0.readyStateOf chOld ≠ ReadyState.CLOSED)
    (hfresh : st0.getID chNew = none)
    (hop : msg.op = some 10) :
    (handleConnection st0 chNew h now).2 =
      [Effect.closeCh chOld WSCloseCode.SESSION_EXPIRED,
       Effect.sendMsg chNew (OutMessage.hello now)]
    ∧ ∃ st3 : ServerState, ∃ effs3 : List Effect,
        handleWSMessage mkId
            (handleClose killOk (handleConnection st0 chNew h now).1 X).1
            chNew (some msg) now2 rand = Except.ok (st3, effs3)
        ∧ (rmapGet st3.registry X).map (·.socket) = some chNew
        ∧ (st3.registry.filter (fun p => p.1 == X)).length = 1 := by
  have htrX : truthy (some X) = true := by
    simp [truthy, hX]
  have hauth : ¬ (st0.password ≠ "" ∧ h.authorization ≠ some st0.password) := by
    rcases hpw with h1 | h1 <;> simp [h1]
  have hstate : (handleConnection st0 chNew h now).1 =
      { st0.closeChan chOld with tags := st0.tags ++ [(chNew, X)] } := by
    simp [handleConnection, hblock, htrX, hauth, hid, hreg, hsock, hopen,
      ServerState.closeChan]
  have heffs : (handleConnection st0 chNew h now).2 =
      [Effect.closeCh chOld WSCloseCode.SESSION_EXPIRED,
       Effect.sendMsg chNew (OutMessage.hello now)] := by
    simp [handleConnection, hblock, htrX, hauth, hid, hreg, hsock, hopen]
  refine ⟨heffs, ?_⟩
  set st2 := (handleClose killOk (handleConnection st0 chNew h now).1 X).1
    with hst2
  have hreg2 : st2.registry = rmapDelete st0.registry X := by
    rw [hst2, hstate]
    rfl
  have htags2 : st2.tags = st0.tags ++ [(chNew, X)] := by
    rw [hst2, hstate]
    rfl
  have htagNew : st2.getID chNew = some X := by
    have hf : st0.tags.find? (fun p => p.1 == chNew) = none := by
      cases hfind : st0.tags.find? (fun p => p.1 == chNew) with
      | none => rfl
      | some p =>
          rw [ServerState.getID, hfind] at hfresh
          simp at hfresh
    rw [ServerState.getID, htags2]
    exact find?_append_single_tag st0.tags chNew X hf
  have hget2 : rmapGet st2.registry X = none := by
    rw [hreg2]
    exact rmapGet_delete _ _
  have hhas2 : rmapHas st2.registry (some X) = false := by
    simp [rmapHas, rmapGetOpt, hget2]
  set cl3 := Client.make mkId chNew (secretKey X now2 rand)
    st2.updateStatusInterval with hcl3
  refine ⟨{ st2 with registry := rmapSet st2.registry X cl3 },
    [Effect.sendMsg chNew (OutMessage.ready cl3.id cl3.secret)], ?_, ?_, ?_⟩
  · simp [handleWSMessage, hop, hhas2, htagNew, hcl3, Client.make]
  · show (rmapGet (rmapSet st2.registry X cl3) X).map (·.socket) = some chNew
    rw [rmapGet_set_of_none _ _ _ hget2]
    rfl
  · show ((rmapSet st2.registry X cl3).filter
        (fun p => p.1 == X)).length = 1
    rw [rmapSet_of_none _ _ _ hget2, List.filter_append, hreg2,
      rmapDelete_filter_eq_nil]
    simp

/-- Witness for C2: channel 2 takes over identity `x` from channel 1. -/
theorem C2_witness :
    (handleConnection stReg 2 hW 5).2 =
      [Effect.closeCh 1 WSCloseCode.SESSION_EXPIRED,
       Effect.sendMsg 2 (OutMessage.hello 5)] :=
  (C2_takeover killOkAll mkIdW stReg "x" 1 2 clW hW 5 6 [] msgId rfl
    (by decide) (by decide) (Or.inl rfl) rfl rfl (by decide) rfl rfl).1

end Nexus
